import Mathlib

/-!
Verification of the page-verification probe script
`jules-scratch/verification/verify_homepage.py`.

The script is embedded shallowly: every call into the browser-automation
capability (launch, new_page, goto, content, the visibility wait, screenshot,
close) is an external operation whose success or failure is decided by an
`Env` value, and `run` mirrors the Python control flow of the source
statement by statement, including the `try` / `except Exception` / `finally`
structure.  Python semantics that matter here:

* `browser = playwright.chromium.launch()` and `page = browser.new_page()`
  execute BEFORE the `try` block, so their failures are neither caught by the
  `except` clause nor followed by the `finally` close.
* the `except Exception` clause catches any failure raised inside the `try`
  body; it prints the error message, then attempts `page.screenshot` to the
  error path, then prints a confirmation.  A failure of that screenshot
  propagates out of the `except` clause.
* the `finally` clause always runs `browser.close()`; if `close` itself
  raises, its exception replaces whatever exception was in flight.

Side effects are recorded as an event trace (each call emits its event when
invoked, whether or not it succeeds) plus a file-system map updated only by
successful screenshot writes.
-/

namespace VerifyHomepage

/-- Exceptions that the external operations of the script can raise. -/
inductive Err where
  | launchErr (msg : String)
  | newPageErr (msg : String)
  | gotoErr (msg : String)
  | contentErr (msg : String)
  | timeoutErr (msg : String)
  | screenshotErr (path : String) (msg : String)
  | closeErr (msg : String)
deriving DecidableEq

/-- The message text of an exception, as interpolated by
`print(f"\nAn error occurred: \x7be\x7d")`. -/
def Err.msg : Err → String
  | .launchErr m => m
  | .newPageErr m => m
  | .gotoErr m => m
  | .contentErr m => m
  | .timeoutErr m => m
  | .screenshotErr _ m => m
  | .closeErr m => m

/-- Observable events of one execution: each external call emits its event at
the moment it is invoked (successful or not), and each `print` emits a `log`
event carrying the exact printed string. -/
inductive Event where
  | launch
  | newPage
  | goto (url : String) (waitUntil : String)
  | log (s : String)
  | content
  | waitVisible (role : String) (accName : String) (timeoutMs : Nat)
  | screenshot (path : String)
  | close
deriving DecidableEq

/-- File system: map from path to file contents, `none` when absent. -/
def FS : Type := String → Option String

/-- The empty file system (no artifact files exist). -/
def fsEmpty : FS := fun _ => none

/-- Writing a file: unconditional overwrite at the given path. -/
def writeFile (fs : FS) (p : String) (v : String) : FS :=
  fun q => if q = p then some v else fs q

/-- Execution environment: decides the outcome of every external call, the
page content, the captured image bytes, and the message text of each
possible failure. -/
structure Env where
  launchOk : Bool
  newPageOk : Bool
  gotoOk : Bool
  contentOk : Bool
  /-- Time in milliseconds at which the heading with role "heading" and
  accessible name "Novel to Manga Converter" becomes visible; `none` when it
  never does. -/
  headingVisibleAt : Option Nat
  successShotOk : Bool
  errorShotOk : Bool
  closeOk : Bool
  pageContent : String
  homepageImage : String
  errorImage : String
  launchMsg : String
  newPageMsg : String
  gotoMsg : String
  contentMsg : String
  timeoutMsg : String
  successShotMsg : String
  errorShotMsg : String
  closeMsg : String

/-- The configured target URL (line 11 of the source). -/
def targetURL : String := "http://localhost:3000/"

/-- Fixed success-artifact path (line 23 of the source). -/
def homepagePath : String := "jules-scratch/verification/homepage.png"

/-- Fixed failure-artifact path (line 29 of the source). -/
def errorPath : String := "jules-scratch/verification/error.png"

/-- The visibility-wait timeout: `timeout=10000` milliseconds (line 20). -/
def visibilityTimeoutMs : Nat := 10000

/-- Exact accessible name used by `get_by_role` (line 19). -/
def headingName : String := "Novel to Manga Converter"

/-- Whether the heading becomes visible within `t` milliseconds. -/
def visibleWithin (env : Env) (t : Nat) : Bool :=
  match env.headingVisibleAt with
  | some n => decide (n ≤ t)
  | none => false

/-- Result of (a part of) an execution: the events emitted, the final file
system, and the exception propagating out (`none` when it finishes
normally). -/
structure StepResult where
  events : List Event
  fs : FS
  err : Option Err

/-- The body of the `try` block (lines 9-24): navigate with
`wait_until="domcontentloaded"`, print the page content between two marker
lines, wait for the heading to be visible with a 10000 ms timeout, take the
success screenshot, print the success message.  Execution stops at the first
failing call, whose exception becomes the result's `err`. -/
def tryBody (env : Env) (fs : FS) : StepResult :=
  if env.gotoOk = false then
    ⟨[Event.goto targetURL "domcontentloaded"], fs, some (Err.gotoErr env.gotoMsg)⟩
  else if env.contentOk = false then
    ⟨[Event.goto targetURL "domcontentloaded",
      Event.log "--- Page Content ---", Event.content], fs,
     some (Err.contentErr env.contentMsg)⟩
  else if visibleWithin env visibilityTimeoutMs = false then
    ⟨[Event.goto targetURL "domcontentloaded",
      Event.log "--- Page Content ---", Event.content,
      Event.log env.pageContent, Event.log "--------------------",
      Event.waitVisible "heading" headingName visibilityTimeoutMs], fs,
     some (Err.timeoutErr env.timeoutMsg)⟩
  else if env.successShotOk = false then
    ⟨[Event.goto targetURL "domcontentloaded",
      Event.log "--- Page Content ---", Event.content,
      Event.log env.pageContent, Event.log "--------------------",
      Event.waitVisible "heading" headingName visibilityTimeoutMs,
      Event.screenshot homepagePath], fs,
     some (Err.screenshotErr homepagePath env.successShotMsg)⟩
  else
    ⟨[Event.goto targetURL "domcontentloaded",
      Event.log "--- Page Content ---", Event.content,
      Event.log env.pageContent, Event.log "--------------------",
      Event.waitVisible "heading" headingName visibilityTimeoutMs,
      Event.screenshot homepagePath,
      Event.log "\nScreenshot taken successfully!"],
     writeFile fs homepagePath env.homepageImage, none⟩

/-- The `except Exception as e` clause (lines 26-30): print the error
message, attempt the failure screenshot to the error path, and on its
success print the confirmation; if the screenshot fails, its exception
propagates out of the clause. -/
def exceptClause (env : Env) (fs : FS) (e : Err) : StepResult :=
  if env.errorShotOk = true then
    ⟨[Event.log ("\nAn error occurred: " ++ e.msg),
      Event.screenshot errorPath,
      Event.log "Error screenshot taken."],
     writeFile fs errorPath env.errorImage, none⟩
  else
    ⟨[Event.log ("\nAn error occurred: " ++ e.msg),
      Event.screenshot errorPath], fs,
     some (Err.screenshotErr errorPath env.errorShotMsg)⟩

/-- The `try` body combined with its `except Exception` clause: a failure of
the body is handed to `exceptClause`, a normal completion skips it. -/
def handled (env : Env) (fs : FS) : StepResult :=
  match (tryBody env fs).err with
  | none => tryBody env fs
  | some e =>
    ⟨(tryBody env fs).events ++ (exceptClause env (tryBody env fs).fs e).events,
     (exceptClause env (tryBody env fs).fs e).fs,
     (exceptClause env (tryBody env fs).fs e).err⟩

/-- The function `run(playwright)` (lines 4-33).  `launch` and `new_page`
run before the `try` block: if either raises, nothing is caught and the
`finally` close never executes.  Otherwise the handled body runs and the
`finally` clause invokes `close`; if `close` raises, its exception replaces
whatever exception was in flight. -/
def run (env : Env) (fs : FS) : StepResult :=
  if env.launchOk = false then
    ⟨[Event.launch], fs, some (Err.launchErr env.launchMsg)⟩
  else if env.newPageOk = false then
    ⟨[Event.launch, Event.newPage], fs, some (Err.newPageErr env.newPageMsg)⟩
  else
    ⟨Event.launch :: Event.newPage :: (handled env fs).events ++ [Event.close],
     (handled env fs).fs,
     if env.closeOk = true then (handled env fs).err
     else some (Err.closeErr env.closeMsg)⟩

/-- The module level (lines 35-36) runs `run` once inside the
`sync_playwright()` context; an uncaught exception terminates the Python
process with exit code 1, a normal return exits 0. -/
def exitCode (env : Env) (fs : FS) : Nat :=
  if (run env fs).err = none then 0 else 1

/-- Whether the `try` body fails (some call in lines 11-23 raises). -/
def tryFails (env : Env) : Bool :=
  !env.gotoOk || !env.contentOk ||
    !(visibleWithin env visibilityTimeoutMs) || !env.successShotOk

/-- Number of `close` invocations in a trace. -/
def closeCount (evs : List Event) : Nat :=
  (evs.filter fun e => match e with | Event.close => true | _ => false).length

/-- Number of navigation (`goto`) invocations in a trace. -/
def gotoCount (evs : List Event) : Nat :=
  (evs.filter fun e => match e with | Event.goto _ _ => true | _ => false).length

/-- Environment of a healthy execution: server reachable, heading visible
after 500 ms, every local operation succeeds. -/
def envOk : Env :=
  ⟨true, true, true, true, some 500, true, true, true,
   "<html>home</html>", "home-image-bytes", "error-image-bytes",
   "launch failed", "new_page failed", "net::ERR_CONNECTION_REFUSED at http://localhost:3000/",
   "content failed", "Timeout 10000ms exceeded",
   "homepage screenshot failed", "error screenshot failed", "close failed"⟩

/-- Environment in which `browser.new_page()` raises; everything else would
succeed. -/
def envPageFail : Env :=
  ⟨true, false, true, true, some 500, true, true, true,
   "<html>home</html>", "home-image-bytes", "error-image-bytes",
   "launch failed", "new_page failed", "net::ERR_CONNECTION_REFUSED at http://localhost:3000/",
   "content failed", "Timeout 10000ms exceeded",
   "homepage screenshot failed", "error screenshot failed", "close failed"⟩

/-- Environment in which navigation fails (connection refused) and the
failure screenshot succeeds. -/
def envGotoFail : Env :=
  ⟨true, true, false, true, some 500, true, true, true,
   "<html>home</html>", "home-image-bytes", "error-image-bytes",
   "launch failed", "new_page failed", "net::ERR_CONNECTION_REFUSED at http://localhost:3000/",
   "content failed", "Timeout 10000ms exceeded",
   "homepage screenshot failed", "error screenshot failed", "close failed"⟩

/-- Environment in which navigation fails and the failure screenshot itself
raises; close still succeeds. -/
def envGotoShotFail : Env :=
  ⟨true, true, false, true, some 500, true, false, true,
   "<html>home</html>", "home-image-bytes", "error-image-bytes",
   "launch failed", "new_page failed", "net::ERR_CONNECTION_REFUSED at http://localhost:3000/",
   "content failed", "Timeout 10000ms exceeded",
   "homepage screenshot failed", "error screenshot failed", "close failed"⟩

/-- Environment in which navigation fails, the failure screenshot raises,
and `browser.close()` in the `finally` clause raises as well. -/
def envGotoShotCloseFail : Env :=
  ⟨true, true, false, true, some 500, true, false, false,
   "<html>home</html>", "home-image-bytes", "error-image-bytes",
   "launch failed", "new_page failed", "net::ERR_CONNECTION_REFUSED at http://localhost:3000/",
   "content failed", "Timeout 10000ms exceeded",
   "homepage screenshot failed", "error screenshot failed", "close failed"⟩

/-- Environment with a reachable server whose page never shows the expected
heading; every other operation succeeds. -/
def envNoHeading : Env :=
  ⟨true, true, true, true, none, true, true, true,
   "<html>other</html>", "home-image-bytes", "error-image-bytes",
   "launch failed", "new_page failed", "net::ERR_CONNECTION_REFUSED at http://localhost:3000/",
   "content failed", "Timeout 10000ms exceeded",
   "homepage screenshot failed", "error screenshot failed", "close failed"⟩

lemma tryBody_err_none_iff (env : Env) (fs : FS) :
    (tryBody env fs).err = none ↔ tryFails env = false := by
  unfold tryBody tryFails
  cases hg : env.gotoOk <;> cases hc : env.contentOk <;>
    cases hv : visibleWithin env visibilityTimeoutMs <;>
    cases hs : env.successShotOk <;> simp [hg, hc, hv, hs]

lemma tryBody_fs_of_fail (env : Env) (fs : FS) (h : tryFails env = true) :
    (tryBody env fs).fs = fs := by
  unfold tryBody
  unfold tryFails at h
  cases hg : env.gotoOk <;> cases hc : env.contentOk <;>
    cases hv : visibleWithin env visibilityTimeoutMs <;>
    cases hs : env.successShotOk <;>
    simp [hg, hc, hv, hs] at h ⊢

lemma tryBody_fs_of_ok (env : Env) (fs : FS) (h : tryFails env = false) :
    (tryBody env fs).fs = writeFile fs homepagePath env.homepageImage := by
  unfold tryBody
  unfold tryFails at h
  cases hg : env.gotoOk <;> cases hc : env.contentOk <;>
    cases hv : visibleWithin env visibilityTimeoutMs <;>
    cases hs : env.successShotOk <;>
    simp [hg, hc, hv, hs] at h ⊢

lemma tryBody_err_of_fail (env : Env) (fs : FS) (h : tryFails env = true) :
    ∃ e, (tryBody env fs).err = some e := by
  cases he : (tryBody env fs).err with
  | none =>
    rw [tryBody_err_none_iff] at he
    rw [he] at h
    exact absurd h (by simp)
  | some e => exact ⟨e, rfl⟩

lemma handled_of_ok (env : Env) (fs : FS) (h : tryFails env = false) :
    handled env fs = tryBody env fs := by
  have he : (tryBody env fs).err = none := (tryBody_err_none_iff env fs).mpr h
  unfold handled
  rw [he]

lemma handled_of_fail (env : Env) (fs : FS) (h : tryFails env = true) :
    ∃ e, (tryBody env fs).err = some e ∧
      handled env fs =
        ⟨(tryBody env fs).events ++ (exceptClause env fs e).events,
         (exceptClause env fs e).fs, (exceptClause env fs e).err⟩ := by
  obtain ⟨e, he⟩ := tryBody_err_of_fail env fs h
  refine ⟨e, he, ?_⟩
  unfold handled
  rw [he, tryBody_fs_of_fail env fs h]

lemma handled_err_none_iff (env : Env) (fs : FS) :
    (handled env fs).err = none ↔
      (tryFails env = false ∨ env.errorShotOk = true) := by
  cases htf : tryFails env with
  | false => simp [handled_of_ok env fs htf, (tryBody_err_none_iff env fs).mpr htf]
  | true =>
    obtain ⟨e, _, hh⟩ := handled_of_fail env fs htf
    rw [hh]
    unfold exceptClause
    cases hes : env.errorShotOk <;> simp [hes]

lemma closeCount_tryBody (env : Env) (fs : FS) :
    closeCount (tryBody env fs).events = 0 := by
  unfold tryBody
  cases hg : env.gotoOk <;> cases hc : env.contentOk <;>
    cases hv : visibleWithin env visibilityTimeoutMs <;>
    cases hs : env.successShotOk <;>
    simp [hg, hc, hv, hs, closeCount]

lemma closeCount_exceptClause (env : Env) (fs : FS) (e : Err) :
    closeCount (exceptClause env fs e).events = 0 := by
  unfold exceptClause
  cases hes : env.errorShotOk <;> simp [hes, closeCount]

lemma closeCount_append (l₁ l₂ : List Event) :
    closeCount (l₁ ++ l₂) = closeCount l₁ + closeCount l₂ := by
  simp [closeCount, List.filter_append]

lemma gotoCount_tryBody (env : Env) (fs : FS) :
    gotoCount (tryBody env fs).events = 1 := by
  unfold tryBody
  cases hg : env.gotoOk <;> cases hc : env.contentOk <;>
    cases hv : visibleWithin env visibilityTimeoutMs <;>
    cases hs : env.successShotOk <;>
    simp [hg, hc, hv, hs, gotoCount]

lemma gotoCount_exceptClause (env : Env) (fs : FS) (e : Err) :
    gotoCount (exceptClause env fs e).events = 0 := by
  unfold exceptClause
  cases hes : env.errorShotOk <;> simp [hes, gotoCount]

lemma gotoCount_append (l₁ l₂ : List Event) :
    gotoCount (l₁ ++ l₂) = gotoCount l₁ + gotoCount l₂ := by
  simp [gotoCount, List.filter_append]

lemma goto_mem_tryBody (env : Env) (fs : FS) (u w : String)
    (h : Event.goto u w ∈ (tryBody env fs).events) :
    u = targetURL ∧ w = "domcontentloaded" := by
  unfold tryBody at h
  cases hg : env.gotoOk <;> cases hc : env.contentOk <;>
    cases hv : visibleWithin env visibilityTimeoutMs <;>
    cases hs : env.successShotOk <;>
    simp [hg, hc, hv, hs] at h <;> exact h

lemma goto_not_mem_exceptClause (env : Env) (fs : FS) (e : Err) (u w : String) :
    Event.goto u w ∉ (exceptClause env fs e).events := by
  unfold exceptClause
  cases hes : env.errorShotOk <;> simp [hes]

lemma writeFile_writeFile (fs : FS) (p v : String) :
    writeFile (writeFile fs p v) p v = writeFile fs p v := by
  funext q
  unfold writeFile
  by_cases h : q = p <;> simp [h]

lemma writeFile_same (fs : FS) (p v : String) : writeFile fs p v p = some v := by
  unfold writeFile
  simp

lemma writeFile_other (fs : FS) (p v q : String) (h : q ≠ p) :
    writeFile fs p v q = fs q := by
  unfold writeFile
  simp [h]

lemma tryBody_events_const (env : Env) (fs₁ fs₂ : FS) :
    (tryBody env fs₁).events = (tryBody env fs₂).events := by
  unfold tryBody
  cases hg : env.gotoOk <;> cases hc : env.contentOk <;>
    cases hv : visibleWithin env visibilityTimeoutMs <;>
    cases hs : env.successShotOk <;> simp [hg, hc, hv, hs]

lemma tryBody_err_const (env : Env) (fs₁ fs₂ : FS) :
    (tryBody env fs₁).err = (tryBody env fs₂).err := by
  unfold tryBody
  cases hg : env.gotoOk <;> cases hc : env.contentOk <;>
    cases hv : visibleWithin env visibilityTimeoutMs <;>
    cases hs : env.successShotOk <;> simp [hg, hc, hv, hs]

lemma exceptClause_events_const (env : Env) (fs₁ fs₂ : FS) (e : Err) :
    (exceptClause env fs₁ e).events = (exceptClause env fs₂ e).events := by
  unfold exceptClause
  cases hes : env.errorShotOk <;> simp [hes]

lemma exceptClause_err_const (env : Env) (fs₁ fs₂ : FS) (e : Err) :
    (exceptClause env fs₁ e).err = (exceptClause env fs₂ e).err := by
  unfold exceptClause
  cases hes : env.errorShotOk <;> simp [hes]

lemma handled_events_const (env : Env) (fs₁ fs₂ : FS) :
    (handled env fs₁).events = (handled env fs₂).events := by
  cases htf : tryFails env with
  | false =>
    rw [handled_of_ok env fs₁ htf, handled_of_ok env fs₂ htf]
    exact tryBody_events_const env fs₁ fs₂
  | true =>
    obtain ⟨e₁, he₁, hh₁⟩ := handled_of_fail env fs₁ htf
    obtain ⟨e₂, he₂, hh₂⟩ := handled_of_fail env fs₂ htf
    have heq : some e₁ = some e₂ := by
      rw [← he₁, ← he₂]
      exact tryBody_err_const env fs₁ fs₂
    obtain rfl : e₁ = e₂ := Option.some.inj heq
    rw [hh₁, hh₂]
    simp [tryBody_events_const env fs₁ fs₂, exceptClause_events_const env fs₁ fs₂ e₁]

lemma handled_err_const (env : Env) (fs₁ fs₂ : FS) :
    (handled env fs₁).err = (handled env fs₂).err := by
  cases htf : tryFails env with
  | false =>
    rw [handled_of_ok env fs₁ htf, handled_of_ok env fs₂ htf]
    exact tryBody_err_const env fs₁ fs₂
  | true =>
    obtain ⟨e₁, he₁, hh₁⟩ := handled_of_fail env fs₁ htf
    obtain ⟨e₂, he₂, hh₂⟩ := handled_of_fail env fs₂ htf
    have heq : some e₁ = some e₂ := by
      rw [← he₁, ← he₂]
      exact tryBody_err_const env fs₁ fs₂
    obtain rfl : e₁ = e₂ := Option.some.inj heq
    rw [hh₁, hh₂]
    simp [exceptClause_err_const env fs₁ fs₂ e₁]

lemma handled_fs_char (env : Env) (fs : FS) :
    (handled env fs).fs =
      if tryFails env = true then
        (if env.errorShotOk = true then writeFile fs errorPath env.errorImage else fs)
      else writeFile fs homepagePath env.homepageImage := by
  cases htf : tryFails env with
  | false =>
    rw [handled_of_ok env fs htf]
    simp [tryBody_fs_of_ok env fs htf]
  | true =>
    obtain ⟨e, he, hh⟩ := handled_of_fail env fs htf
    rw [hh]
    unfold exceptClause
    cases hes : env.errorShotOk <;> simp [hes]

lemma run_events_const (env : Env) (fs₁ fs₂ : FS) :
    (run env fs₁).events = (run env fs₂).events := by
  unfold run
  cases hl : env.launchOk <;> cases hp : env.newPageOk <;>
    simp [hl, hp, handled_events_const env fs₁ fs₂]

lemma run_err_const (env : Env) (fs₁ fs₂ : FS) :
    (run env fs₁).err = (run env fs₂).err := by
  unfold run
  cases hl : env.launchOk <;> cases hp : env.newPageOk <;>
    simp [hl, hp, handled_err_const env fs₁ fs₂]

lemma run_fs_char (env : Env) (fs : FS) :
    (run env fs).fs =
      if env.launchOk = false then fs
      else if env.newPageOk = false then fs
      else (handled env fs).fs := by
  unfold run
  cases hl : env.launchOk <;> cases hp : env.newPageOk <;> simp [hl, hp]

lemma closeCount_handled (env : Env) (fs : FS) :
    closeCount (handled env fs).events = 0 := by
  cases htf : tryFails env with
  | false =>
    rw [handled_of_ok env fs htf]
    exact closeCount_tryBody env fs
  | true =>
    obtain ⟨e, he, hh⟩ := handled_of_fail env fs htf
    rw [hh]
    simp only [closeCount_append, closeCount_tryBody, closeCount_exceptClause]

lemma gotoCount_handled (env : Env) (fs : FS) :
    gotoCount (handled env fs).events = 1 := by
  cases htf : tryFails env with
  | false =>
    rw [handled_of_ok env fs htf]
    exact gotoCount_tryBody env fs
  | true =>
    obtain ⟨e, he, hh⟩ := handled_of_fail env fs htf
    rw [hh]
    simp only [gotoCount_append, gotoCount_tryBody, gotoCount_exceptClause]

lemma goto_mem_handled (env : Env) (fs : FS) (u w : String)
    (h : Event.goto u w ∈ (handled env fs).events) :
    u = targetURL ∧ w = "domcontentloaded" := by
  cases htf : tryFails env with
  | false =>
    rw [handled_of_ok env fs htf] at h
    exact goto_mem_tryBody env fs u w h
  | true =>
    obtain ⟨e, he, hh⟩ := handled_of_fail env fs htf
    rw [hh] at h
    simp only [List.mem_append] at h
    rcases h with h | h
    · exact goto_mem_tryBody env fs u w h
    · exact absurd h (goto_not_mem_exceptClause env fs e u w)

example : (run envOk fsEmpty).err = none := by decide
example : (run envOk fsEmpty).fs homepagePath = some "home-image-bytes" := by decide
example : (run envOk fsEmpty).fs errorPath = none := by decide
example : (run envPageFail fsEmpty).err = some (Err.newPageErr "new_page failed") := by decide
example : closeCount (run envPageFail fsEmpty).events = 0 := by decide
example : (run envGotoFail fsEmpty).fs errorPath = some "error-image-bytes" := by decide
example : (run envGotoShotFail fsEmpty).err
    = some (Err.screenshotErr errorPath "error screenshot failed") := by decide
example : (run envGotoShotCloseFail fsEmpty).err = some (Err.closeErr "close failed") := by decide
example : (run envNoHeading fsEmpty).err = none := by decide
example : (run envNoHeading fsEmpty).fs errorPath = some "error-image-bytes" := by decide
example : exitCode envGotoShotFail fsEmpty = 1 := by decide
example : exitCode envNoHeading fsEmpty = 0 := by decide

/-- C1 counterexample: the claim says every failure arising in steps 2-6,
including opening the page context, is caught inside run().  But
`page = browser.new_page()` (line 6) executes before the `try` block
(line 8): in an environment where it raises, run() propagates the exception
to its caller, nothing is logged and no failure screenshot is attempted. -/
theorem C1_counterexample :
    (run envPageFail fsEmpty).err = some (Err.newPageErr "new_page failed") ∧
      (run envPageFail fsEmpty).events = [Event.launch, Event.newPage] := by
  decide

/-- C1 (amended): every failure arising in steps 3-6 (navigation, content
dump, visibility wait, success screenshot) is caught inside run(): provided
the failure screenshot and the close succeed, run() raises nothing, and on
any such failure the error message is logged and the failure screenshot is
attempted.  A failure while opening the page context (step 2) is not
covered: it propagates uncaught. -/
theorem C1_failures_inside_try_are_caught (env : Env) (fs : FS)
    (hl : env.launchOk = true) (hp : env.newPageOk = true)
    (hes : env.errorShotOk = true) (hcl : env.closeOk = true) :
    (run env fs).err = none ∧
      (tryFails env = true →
        Event.screenshot errorPath ∈ (run env fs).events ∧
          ∃ m, Event.log ("\nAn error occurred: " ++ m) ∈ (run env fs).events) := by
  have hev : (run env fs).events =
      Event.launch :: Event.newPage :: (handled env fs).events ++ [Event.close] := by
    unfold run
    simp [hl, hp]
  have herr : (run env fs).err = none := by
    unfold run
    simp [hl, hp, hcl]
    exact (handled_err_none_iff env fs).mpr (Or.inr hes)
  refine ⟨herr, fun htf => ?_⟩
  obtain ⟨e, he, hh⟩ := handled_of_fail env fs htf
  rw [hev, hh]
  refine ⟨?_, ⟨e.msg, ?_⟩⟩ <;>
    · unfold exceptClause
      simp [hes]

/-- C1 witness: in a concrete environment where navigation fails but the
failure screenshot and close succeed, run() raises nothing, attempts the
failure screenshot and logs an error message. -/
theorem C1_witness :
    (run envGotoFail fsEmpty).err = none ∧
      (tryFails envGotoFail = true →
        Event.screenshot errorPath ∈ (run envGotoFail fsEmpty).events ∧
          ∃ m, Event.log ("\nAn error occurred: " ++ m) ∈ (run envGotoFail fsEmpty).events) :=
  C1_failures_inside_try_are_caught envGotoFail fsEmpty rfl rfl rfl rfl

/-- C2 counterexample: the claim says that whenever the browser session was
acquired, close() runs exactly once on every exit path, including a failure
while opening the page context.  But if `browser.new_page()` (line 6, before
the `try`) raises, the `finally` clause is never entered: the session was
acquired (`launch` succeeded) yet close() is invoked zero times. -/
theorem C2_counterexample :
    envPageFail.launchOk = true ∧
      Event.launch ∈ (run envPageFail fsEmpty).events ∧
      closeCount (run envPageFail fsEmpty).events = 0 := by
  decide

/-- C2 (amended): in every execution in which both the browser session and
the page context were successfully acquired, close() is invoked exactly once
before run() returns or propagates, on every exit path.  If opening the page
context fails, close() is never invoked. -/
theorem C2_close_exactly_once (env : Env) (fs : FS)
    (hl : env.launchOk = true) (hp : env.newPageOk = true) :
    closeCount (run env fs).events = 1 := by
  have hev : (run env fs).events =
      Event.launch :: Event.newPage :: (handled env fs).events ++ [Event.close] := by
    unfold run
    simp [hl, hp]
  rw [hev]
  have h0 := closeCount_handled env fs
  simp [closeCount, List.filter_append, List.filter_cons] at h0 ⊢
  exact h0

/-- C2 witness: in the healthy concrete environment close() is invoked
exactly once. -/
theorem C2_witness : closeCount (run envOk fsEmpty).events = 1 :=
  C2_close_exactly_once envOk fsEmpty rfl rfl

/-- C3: under launch, page-open, navigation and content-dump success, the
trace contains the visibility wait for role "heading" with exact accessible
name "Novel to Manga Converter" bounded by 10000 ms, and the `try` body
fails with a TimeoutError exactly when the heading does not become visible
within that bound. -/
theorem C3_visibility_wait_bounded (env : Env) (fs : FS)
    (hl : env.launchOk = true) (hp : env.newPageOk = true)
    (hg : env.gotoOk = true) (hc : env.contentOk = true) :
    Event.waitVisible "heading" headingName visibilityTimeoutMs ∈ (run env fs).events ∧
      visibilityTimeoutMs = 10000 ∧
      ((tryBody env fs).err = some (Err.timeoutErr env.timeoutMsg) ↔
        visibleWithin env visibilityTimeoutMs = false) := by
  have hev : (run env fs).events =
      Event.launch :: Event.newPage :: (handled env fs).events ++ [Event.close] := by
    unfold run
    simp [hl, hp]
  refine ⟨?_, rfl, ?_⟩
  · rw [hev]
    have hmem : Event.waitVisible "heading" headingName visibilityTimeoutMs ∈
        (tryBody env fs).events := by
      unfold tryBody
      cases hv : visibleWithin env visibilityTimeoutMs <;>
        cases hs : env.successShotOk <;> simp [hg, hc, hv, hs]
    have hmem2 : Event.waitVisible "heading" headingName visibilityTimeoutMs ∈
        (handled env fs).events := by
      cases htf : tryFails env with
      | false =>
        rw [handled_of_ok env fs htf]
        exact hmem
      | true =>
        obtain ⟨e, he, hh⟩ := handled_of_fail env fs htf
        rw [hh]
        simp only [List.mem_append]
        exact Or.inl hmem
    simp [hmem2]
  · unfold tryBody
    cases hv : visibleWithin env visibilityTimeoutMs <;>
      cases hs : env.successShotOk <;> simp [hg, hc, hv, hs]

/-- C3 witness: with a reachable server whose page never shows the heading,
the wait event with the 10000 ms bound is in the trace and the step fails
with a TimeoutError. -/
theorem C3_witness :
    Event.waitVisible "heading" headingName visibilityTimeoutMs ∈
        (run envNoHeading fsEmpty).events ∧
      visibilityTimeoutMs = 10000 ∧
      ((tryBody envNoHeading fsEmpty).err
          = some (Err.timeoutErr envNoHeading.timeoutMsg) ↔
        visibleWithin envNoHeading visibilityTimeoutMs = false) :=
  C3_visibility_wait_bounded envNoHeading fsEmpty rfl rfl rfl rfl

/-- C4: in every run whose local operations succeed, with a reachable server
whose page shows the heading within the 10-second bound, run() writes the
success screenshot to jules-scratch/verification/homepage.png, leaves the
error path untouched (never even invoking a screenshot to it), and logs the
"Screenshot taken successfully!" message (the source prints it with a
leading newline). -/
theorem C4_success_artifacts (env : Env) (fs : FS)
    (hl : env.launchOk = true) (hp : env.newPageOk = true)
    (hg : env.gotoOk = true) (hc : env.contentOk = true)
    (hv : visibleWithin env visibilityTimeoutMs = true)
    (hs : env.successShotOk = true) :
    (run env fs).fs homepagePath = some env.homepageImage ∧
      (run env fs).fs errorPath = fs errorPath ∧
      Event.log "\nScreenshot taken successfully!" ∈ (run env fs).events ∧
      Event.screenshot errorPath ∉ (run env fs).events := by
  have htf : tryFails env = false := by
    unfold tryFails
    simp [hg, hc, hv, hs]
  have hne : errorPath ≠ homepagePath := by decide
  have hfs : (run env fs).fs = writeFile fs homepagePath env.homepageImage := by
    rw [run_fs_char]
    simp [hl, hp, handled_fs_char, htf]
  have hev : (run env fs).events =
      Event.launch :: Event.newPage :: (handled env fs).events ++ [Event.close] := by
    unfold run
    simp [hl, hp]
  have hbody : (tryBody env fs).events =
      [Event.goto targetURL "domcontentloaded",
       Event.log "--- Page Content ---", Event.content,
       Event.log env.pageContent, Event.log "--------------------",
       Event.waitVisible "heading" headingName visibilityTimeoutMs,
       Event.screenshot homepagePath,
       Event.log "\nScreenshot taken successfully!"] := by
    unfold tryBody
    simp [hg, hc, hv, hs]
  refine ⟨?_, ?_, ?_, ?_⟩
  · rw [hfs]
    exact writeFile_same fs homepagePath env.homepageImage
  · rw [hfs]
    exact writeFile_other fs homepagePath env.homepageImage errorPath hne
  · rw [hev, handled_of_ok env fs htf, hbody]
    simp
  · rw [hev, handled_of_ok env fs htf, hbody]
    simp [hne]

/-- C4 witness: the healthy concrete environment produces homepage.png,
leaves error.png absent, logs the success message and never invokes the
error screenshot. -/
theorem C4_witness :
    (run envOk fsEmpty).fs homepagePath = some envOk.homepageImage ∧
      (run envOk fsEmpty).fs errorPath = fsEmpty errorPath ∧
      Event.log "\nScreenshot taken successfully!" ∈ (run envOk fsEmpty).events ∧
      Event.screenshot errorPath ∉ (run envOk fsEmpty).events :=
  C4_success_artifacts envOk fsEmpty rfl rfl rfl rfl (by decide) rfl

/-- C5 counterexample: the claim says every navigation-failure run writes a
screenshot to jules-scratch/verification/error.png.  In an environment where
navigation fails and the failure screenshot itself raises (the unusable-page
case the spec leaves open), error.png is never created and run() propagates
the screenshot exception instead. -/
theorem C5_counterexample :
    envGotoShotFail.gotoOk = false ∧
      (run envGotoShotFail fsEmpty).fs errorPath = none ∧
      (run envGotoShotFail fsEmpty).err
        = some (Err.screenshotErr errorPath "error screenshot failed") := by
  decide

/-- C5 (amended): in every run in which navigation fails, run() catches the
error and logs a message containing the failure description, and
homepage.png is not created; error.png is written exactly when the
best-effort failure screenshot succeeds — when that attempt itself raises,
error.png is not created either. -/
theorem C5_navigation_failure (env : Env) (fs : FS)
    (hl : env.launchOk = true) (hp : env.newPageOk = true)
    (hg : env.gotoOk = false) :
    Event.log ("\nAn error occurred: " ++ env.gotoMsg) ∈ (run env fs).events ∧
      (run env fs).fs homepagePath = fs homepagePath ∧
      (env.errorShotOk = true → (run env fs).fs errorPath = some env.errorImage) ∧
      (env.errorShotOk = false → (run env fs).fs errorPath = fs errorPath) := by
  have htf : tryFails env = true := by
    unfold tryFails
    simp [hg]
  have hne : homepagePath ≠ errorPath := by decide
  have ht : tryBody env fs =
      ⟨[Event.goto targetURL "domcontentloaded"], fs, some (Err.gotoErr env.gotoMsg)⟩ := by
    unfold tryBody
    simp [hg]
  have hev : (run env fs).events =
      Event.launch :: Event.newPage :: (handled env fs).events ++ [Event.close] := by
    unfold run
    simp [hl, hp]
  have hh : handled env fs =
      ⟨[Event.goto targetURL "domcontentloaded"]
          ++ (exceptClause env fs (Err.gotoErr env.gotoMsg)).events,
       (exceptClause env fs (Err.gotoErr env.gotoMsg)).fs,
       (exceptClause env fs (Err.gotoErr env.gotoMsg)).err⟩ := by
    unfold handled
    rw [ht]
  have hfs : (run env fs).fs = (exceptClause env fs (Err.gotoErr env.gotoMsg)).fs := by
    rw [run_fs_char]
    simp [hl, hp, hh]
  refine ⟨?_, ?_, ?_, ?_⟩
  · rw [hev, hh]
    unfold exceptClause
    cases hes : env.errorShotOk <;> simp [hes, Err.msg]
  · rw [hfs]
    unfold exceptClause
    cases hes : env.errorShotOk <;> simp [hes, writeFile_other fs errorPath env.errorImage homepagePath hne]
  · intro hes
    rw [hfs]
    unfold exceptClause
    simp [hes, writeFile_same]
  · intro hes
    rw [hfs]
    unfold exceptClause
    simp [hes]

/-- C5 witness: with navigation refused and a usable page, the error is
logged, homepage.png is not created, and error.png is written. -/
theorem C5_witness :
    Event.log ("\nAn error occurred: " ++ envGotoFail.gotoMsg)
        ∈ (run envGotoFail fsEmpty).events ∧
      (run envGotoFail fsEmpty).fs homepagePath = fsEmpty homepagePath ∧
      (envGotoFail.errorShotOk = true →
        (run envGotoFail fsEmpty).fs errorPath = some envGotoFail.errorImage) ∧
      (envGotoFail.errorShotOk = false →
        (run envGotoFail fsEmpty).fs errorPath = fsEmpty errorPath) :=
  C5_navigation_failure envGotoFail fsEmpty rfl rfl rfl

/-- C6 counterexample: the claim says that every failure mode other than an
uncaught browser-launch failure — explicitly including a failure while
opening the page context — terminates the process with exit code 0.  But a
`browser.new_page()` failure propagates uncaught to the module level and the
process exits nonzero although the launch step succeeded. -/
theorem C6_counterexample :
    envPageFail.launchOk = true ∧ exitCode envPageFail fsEmpty = 1 := by
  decide

/-- C6 (amended): the process exits 0 exactly when run() raises nothing:
when launch, the page-context open and the session close all succeed and
either the try body succeeds or the failure screenshot succeeds.  Failures
while opening the page context, capturing the failure artifact, or closing
the session propagate uncaught and the process exits nonzero. -/
theorem C6_exit_code_characterization (env : Env) (fs : FS) :
    exitCode env fs = 0 ↔
      (env.launchOk = true ∧ env.newPageOk = true ∧ env.closeOk = true ∧
        (tryFails env = false ∨ env.errorShotOk = true)) := by
  unfold exitCode run
  cases hl : env.launchOk <;> cases hp : env.newPageOk <;>
    cases hcl : env.closeOk <;>
    simp [hl, hp, hcl, handled_err_none_iff]
  cases htf : tryFails env <;> simp [htf]

/-- C7 counterexample: the claim says a failure of the error-path screenshot
propagates uncaught to run()'s caller.  In an environment where the
`finally` close also raises, Python replaces the in-flight exception: run()
propagates the close error, not the screenshot error. -/
theorem C7_counterexample :
    envGotoShotCloseFail.errorShotOk = false ∧
      tryFails envGotoShotCloseFail = true ∧
      (run envGotoShotCloseFail fsEmpty).err = some (Err.closeErr "close failed") ∧
      (run envGotoShotCloseFail fsEmpty).err ≠
        some (Err.screenshotErr errorPath "error screenshot failed") := by
  decide

/-- C7 (amended): a failure of the failure-artifact screenshot is not
handled by any clause of run(): it propagates uncaught to run()'s caller
whenever the `finally` close succeeds; if close itself also raises, the
close exception replaces it and propagates instead. -/
theorem C7_error_shot_failure_propagates (env : Env) (fs : FS)
    (hl : env.launchOk = true) (hp : env.newPageOk = true)
    (htf : tryFails env = true) (hes : env.errorShotOk = false) :
    (env.closeOk = true →
        (run env fs).err = some (Err.screenshotErr errorPath env.errorShotMsg)) ∧
      (env.closeOk = false →
        (run env fs).err = some (Err.closeErr env.closeMsg)) := by
  obtain ⟨e, he, hh⟩ := handled_of_fail env fs htf
  have hherr : (handled env fs).err = some (Err.screenshotErr errorPath env.errorShotMsg) := by
    rw [hh]
    unfold exceptClause
    simp [hes]
  constructor <;> intro hcl <;>
    · unfold run
      simp [hl, hp, hcl, hherr]

/-- C7 witness: with navigation failed, the failure screenshot failing and
close succeeding, run() propagates the screenshot exception to its
caller. -/
theorem C7_witness :
    (run envGotoShotFail fsEmpty).err
      = some (Err.screenshotErr errorPath "error screenshot failed") :=
  (C7_error_shot_failure_propagates envGotoShotFail fsEmpty rfl rfl (by decide) rfl).1 rfl

/-- C8: every navigation in a run targets the configured URL with the
domcontentloaded wait condition (not full load), at most one navigation ever
occurs (no retries), and whenever the page context is reached the navigation
is invoked exactly once. -/
theorem C8_single_domcontentloaded_navigation (env : Env) (fs : FS) :
    gotoCount (run env fs).events ≤ 1 ∧
      (∀ u w, Event.goto u w ∈ (run env fs).events →
        u = targetURL ∧ w = "domcontentloaded") ∧
      (env.launchOk = true → env.newPageOk = true →
        gotoCount (run env fs).events = 1) := by
  cases hl : env.launchOk with
  | false =>
    have hev : (run env fs).events = [Event.launch] := by
      unfold run
      simp [hl]
    rw [hev]
    refine ⟨by simp [gotoCount], by simp, fun h => by simp [hl] at h⟩
  | true =>
    cases hp : env.newPageOk with
    | false =>
      have hev : (run env fs).events = [Event.launch, Event.newPage] := by
        unfold run
        simp [hl, hp]
      rw [hev]
      refine ⟨by simp [gotoCount], by simp, fun _ h => by simp [hp] at h⟩
    | true =>
      have hev : (run env fs).events =
          Event.launch :: Event.newPage :: (handled env fs).events ++ [Event.close] := by
        unfold run
        simp [hl, hp]
      have hcount : gotoCount (run env fs).events = 1 := by
        rw [hev]
        have h1 := gotoCount_handled env fs
        simp [gotoCount, List.filter_append, List.filter_cons] at h1 ⊢
        exact h1
      refine ⟨le_of_eq hcount, ?_, fun _ _ => hcount⟩
      intro u w hmem
      rw [hev] at hmem
      simp at hmem
      exact goto_mem_handled env fs u w hmem

/-- C8 witness: in the healthy concrete environment the navigation is
invoked exactly once. -/
theorem C8_witness : gotoCount (run envOk fsEmpty).events = 1 :=
  (C8_single_domcontentloaded_navigation envOk fsEmpty).2.2 rfl rfl

/-- C9: for a fixed environment the branch taken, the log/event trace and
the propagated exception of run() are independent of whatever artifact
files a previous run left on disk, and both screenshot writes overwrite:
running run() again starting from the file system a first run produced
changes nothing further. -/
theorem C9_runs_independent_of_prior_artifacts (env : Env) (fs₁ fs₂ : FS) :
    (run env fs₁).events = (run env fs₂).events ∧
      (run env fs₁).err = (run env fs₂).err ∧
      (run env (run env fs₁).fs).fs = (run env fs₁).fs := by
  refine ⟨run_events_const env fs₁ fs₂, run_err_const env fs₁ fs₂, ?_⟩
  have key : ∀ fs : FS, (run env fs).fs =
      if env.launchOk = false then fs
      else if env.newPageOk = false then fs
      else if tryFails env = true then
        (if env.errorShotOk = true then writeFile fs errorPath env.errorImage else fs)
      else writeFile fs homepagePath env.homepageImage := by
    intro fs
    rw [run_fs_char, handled_fs_char]
  rw [key ((run env fs₁).fs), key fs₁]
  cases hl : env.launchOk <;> cases hp : env.newPageOk <;>
    cases htf : tryFails env <;> cases hes : env.errorShotOk <;>
    simp [hl, hp, htf, hes, writeFile_writeFile]

/-- C10: in every failing run that reached the `try` body, the caught
error's message is logged strictly before the failure-screenshot attempt
begins, and the confirmation "Error screenshot taken." follows the attempt
exactly when the write to jules-scratch/verification/error.png succeeded
(the trace decomposes as: prefix, error log, screenshot attempt, the
confirmation log iff the write succeeded, close). -/
theorem C10_error_log_precedes_shot (env : Env) (fs : FS)
    (hl : env.launchOk = true) (hp : env.newPageOk = true)
    (htf : tryFails env = true) :
    ∃ pre m,
      (run env fs).events =
        pre ++ [Event.log ("\nAn error occurred: " ++ m), Event.screenshot errorPath]
          ++ (if env.errorShotOk = true then [Event.log "Error screenshot taken."] else [])
          ++ [Event.close] := by
  obtain ⟨e, he, hh⟩ := handled_of_fail env fs htf
  have hev : (run env fs).events =
      Event.launch :: Event.newPage :: (handled env fs).events ++ [Event.close] := by
    unfold run
    simp [hl, hp]
  refine ⟨Event.launch :: Event.newPage :: (tryBody env fs).events, e.msg, ?_⟩
  rw [hev, hh]
  unfold exceptClause
  cases hes : env.errorShotOk <;> simp [hes]

/-- C10 witness: in the concrete navigation-failure environment with a
successful failure screenshot, the trace decomposes as required. -/
theorem C10_witness :
    ∃ pre m,
      (run envGotoFail fsEmpty).events =
        pre ++ [Event.log ("\nAn error occurred: " ++ m), Event.screenshot errorPath]
          ++ (if envGotoFail.errorShotOk = true then
                [Event.log "Error screenshot taken."] else [])
          ++ [Event.close] :=
  C10_error_log_precedes_shot envGotoFail fsEmpty rfl rfl (by decide)

end VerifyHomepage
